import Mathlib

/-!
Shallow embedding of the "508 Spendings" backend (src/main.py, src/schemas.py).

Modelling conventions:
  * `float` amounts are modelled as `Int` (the claims under study concern
    sign normalization and exact bookkeeping identities, not rounding).
  * `datetime` values are modelled as `Int` timestamps; `datetime.isoformat`
    is an uninterpreted parameter `iso : Int → String` and
    `datetime.fromisoformat` an uninterpreted parameter
    `parse : String → Option Int` (`none` = the parse raised).
  * A Mongo document's possibly-missing fields are `Option` fields; the
    handlers' `d.get(k, default)` reads become `Option.getD`.
  * The document store (`database.py`, not under src/) is modelled from the
    spec's collaborator contract: insert appends, find filters by exact
    field equality and honours an optional limit, no reordering.
  * Python `list.sort(key=..., reverse=True)` is modelled by a sort that is
    a sorted-descending permutation (Mathlib's `insertionSort`); string
    comparison on the sort key is code-point lexicographic (`pyStrLe`),
    matching Python's `str` ordering.
  * The ObjectId `_id` field and its stringification are omitted: id
    generation belongs to the out-of-scope store driver and no claim
    mentions ids.
-/

namespace Spendings

/-- Code-point lexicographic comparison of char lists; this is exactly how
Python compares `str` values (used by `list.sort` on the date key). -/
def charListLe : List Char → List Char → Bool
  | [], _ => true
  | _ :: _, [] => false
  | a :: as, b :: bs =>
    if a.toNat < b.toNat then true
    else if b.toNat < a.toNat then false
    else charListLe as bs

/-- Python string `<=` (code-point lexicographic). -/
def pyStrLe (a b : String) : Bool :=
  charListLe a.data b.data

/-- Python truthiness of an `Optional[str]`: `None` and `""` are falsy. -/
def strTruthy : Option String → Bool
  | none => false
  | some s => !(s == "")

/-- `find(..., limit?)`: an absent limit returns everything, a present limit
keeps at most `n` documents. -/
def applyLimit (limit : Option Nat) (docs : List α) : List α :=
  match limit with
  | none => docs
  | some n => docs.take n

/-- The value found under a recurring document's `next_due_date` key: a
datetime, a textual form, or missing (`None`). -/
inductive DueField where
  | dt (t : Int)
  | txt (s : String)
  | missing
deriving DecidableEq

/-- A stored document of the `transaction` collection (schemas.Transaction).
`created_at`/`updated_at` are never written by the handlers but the list
serializer reads them defensively, so they are carried as optional fields. -/
structure Transaction where
  client_id : String
  amount : Option Int
  category : Option String
  note : Option String
  date : Option Int
  type : String
  created_at : Option Int
  updated_at : Option Int
deriving DecidableEq

/-- A stored document of the `recurring` collection (schemas.Recurring). -/
structure Recurring where
  client_id : String
  label : Option String
  amount : Option Int
  category : Option String
  frequency : String
  type : String
  next_due_date : DueField
deriving DecidableEq

/-- A stored document of the `share` collection (schemas.Share). -/
structure Share where
  client_id : String
  token : String
  created_at : Option Int
deriving DecidableEq

/-- The document store: one list per collection ("transaction", "recurring",
"share" — the lowercased schema class names from `collection_name`). -/
structure Store where
  transactions : List Transaction
  recurrings : List Recurring
  shares : List Share
deriving DecidableEq

/-- The Mongo filter dict built by `list_transactions` / `get_balance`:
`{"client_id": ...}` plus an optional `"category"` key. -/
structure TxFilter where
  client_id : String
  category : Option String
deriving DecidableEq

/-- Exact-match document filtering for the transaction collection, as the
spec's store contract prescribes. -/
def matchesTx (f : TxFilter) (d : Transaction) : Bool :=
  d.client_id == f.client_id &&
    (match f.category with
     | none => true
     | some c => d.category == some c)

/-- Modelled from the spec: `database.get_documents` on the `transaction`
collection is not under src/; the spec's collaborator contract says
`find(collection_name, filter, limit?) -> list of documents` matching by
exact field equality, at most `limit` when given, with insertion order. -/
def findTx (s : Store) (f : TxFilter) (limit : Option Nat) : List Transaction :=
  applyLimit limit (s.transactions.filter (matchesTx f))

/-- Modelled from the spec: `database.get_documents` on the `recurring`
collection with filter `{"client_id": client_id}`. -/
def findRecurring (s : Store) (client_id : String) (limit : Option Nat) : List Recurring :=
  applyLimit limit (s.recurrings.filter (fun d => d.client_id == client_id))

/-- Modelled from the spec: `database.get_documents` on the `share`
collection with filter `{"token": token}`. -/
def findShare (s : Store) (token : String) (limit : Option Nat) : List Share :=
  applyLimit limit (s.shares.filter (fun d => d.token == token))

/-- Request body of POST /api/transactions (main.TransactionIn). -/
structure TransactionIn where
  client_id : String
  amount : Int
  category : String
  note : Option String
  type : String
  date : Option Int
deriving DecidableEq

/-- Request body of POST /api/recurring (main.RecurringIn). -/
structure RecurringIn where
  client_id : String
  label : String
  amount : Int
  category : String
  frequency : String
  type : String
  next_due_date : Option Int
deriving DecidableEq

/-- Construction of a schemas.Transaction pydantic model: the `Literal`
annotation on `type` rejects anything outside the enum with a
ValidationError; the other field types are guaranteed by the caller. -/
def Transaction.build (client_id : String) (amount : Int) (category : String)
    (note : Option String) (date : Int) (ty : String) : Except String Transaction :=
  if ty == "income" || ty == "expense" then
    .ok { client_id := client_id, amount := some amount, category := some category,
          note := note, date := some date, type := ty,
          created_at := none, updated_at := none }
  else
    .error "ValidationError"

/-- Construction of a schemas.Recurring pydantic model: `Literal` checks on
`frequency` and `type`. -/
def Recurring.build (client_id : String) (label : String) (amount : Int)
    (category : String) (frequency : String) (ty : String)
    (next_due_date : Int) : Except String Recurring :=
  if frequency == "daily" || frequency == "weekly" || frequency == "monthly" then
    if ty == "income" || ty == "expense" then
      .ok { client_id := client_id, label := some label, amount := some amount,
            category := some category, frequency := frequency, type := ty,
            next_due_date := .dt next_due_date }
    else .error "ValidationError"
  else .error "ValidationError"

/-- POST /api/transactions: normalize the sign from the payload's type, then
derive the stored type from the sign of the normalized amount. `now` is
`datetime.now(timezone.utc)`. -/
def create_transaction (now : Int) (payload : TransactionIn) (s : Store) :
    Except String Store :=
  let amt := |payload.amount|
  let amt := if payload.type == "expense" then -amt else amt
  match Transaction.build payload.client_id amt payload.category payload.note
      (payload.date.getD now) (if amt ≥ 0 then "income" else "expense") with
  | .ok tx => .ok { s with transactions := s.transactions ++ [tx] }
  | .error e => .error e

/-- A transaction document after the list endpoint's serialization pass
(datetime fields turned into iso strings). -/
structure TxOut where
  client_id : String
  amount : Option Int
  category : Option String
  note : Option String
  date : Option String
  type : String
  created_at : Option String
  updated_at : Option String
deriving DecidableEq

/-- The in-place serialization loop of `list_transactions`. -/
def serializeTx (iso : Int → String) (d : Transaction) : TxOut :=
  { client_id := d.client_id, amount := d.amount, category := d.category,
    note := d.note, date := d.date.map iso, type := d.type,
    created_at := d.created_at.map iso, updated_at := d.updated_at.map iso }

/-- The sort key of `docs.sort(key=lambda x: x.get("date", ""), ...)`. -/
def dateKey (t : TxOut) : String := t.date.getD ""

/-- The descending comparison used by `docs.sort(..., reverse=True)`:
`a` may precede `b` when `b`'s date key is ≤ `a`'s. -/
def dateDesc (a b : TxOut) : Bool := pyStrLe (dateKey b) (dateKey a)

/-- The filter dict built at the top of `list_transactions`:
`{"client_id": client_id}`, plus `"category"` only when the query value is
truthy (so `None` and `""` both mean: no category filter). -/
def txFilterOf (client_id : String) (category : Option String) : TxFilter :=
  let filt : TxFilter := { client_id := client_id, category := none }
  if strTruthy category then { filt with category := category } else filt

/-- GET /api/transactions: filter, fetch at most `limit`, serialize, sort by
date descending. -/
def list_transactions (iso : Int → String) (client_id : String)
    (category : Option String) (limit : Nat) (s : Store) : List TxOut :=
  let docs := findTx s (txFilterOf client_id category) (some limit)
  let docs := docs.map (serializeTx iso)
  docs.insertionSort (fun a b => dateDesc a b = true)

/-- GET /api/balance: sum of `d.get("amount", 0)` over every matching
document (no limit). -/
def get_balance (client_id : String) (s : Store) : Int :=
  ((findTx s { client_id := client_id, category := none } none).map
    (fun d => d.amount.getD 0)).sum

/-- POST /api/recurring: store amount and type exactly as given (no sign
normalization), defaulting `next_due_date` to now. -/
def create_recurring (now : Int) (payload : RecurringIn) (s : Store) :
    Except String Store :=
  match Recurring.build payload.client_id payload.label payload.amount
      payload.category payload.frequency payload.type
      (payload.next_due_date.getD now) with
  | .ok r => .ok { s with recurrings := s.recurrings ++ [r] }
  | .error e => .error e

/-- The due date actually compared against `now` in `reminders`: a stored
datetime is used directly; anything else goes through
`datetime.fromisoformat`, and a failed parse (including `None`, which
raises TypeError) falls back to `now`. -/
def effectiveDue (parse : String → Option Int) (now : Int) : DueField → Int
  | .dt t => t
  | .txt s => (parse s).getD now
  | .missing => now

/-- One element of the `due` list returned by /api/reminders. -/
structure ReminderOut where
  label : Option String
  category : Option String
  amount : Option Int
deriving DecidableEq

/-- GET /api/reminders: keep the recurring records whose effective due date
is ≤ now, projected to label/category/amount. -/
def reminders (parse : String → Option Int) (now : Int) (client_id : String)
    (s : Store) : List ReminderOut :=
  let docs := findRecurring s client_id none
  docs.foldl (fun due d =>
    if effectiveDue parse now d.next_due_date ≤ now then
      due ++ [{ label := d.label, category := d.category, amount := d.amount }]
    else due) []

/-- The `raise HTTPException(status_code=..., detail=...)` error shape. -/
structure HTTPError where
  status_code : Nat
  detail : String
deriving DecidableEq

/-- A transaction document after the share endpoint's serialization pass
(only `date` is stringified there; `created_at`/`updated_at` are not). -/
structure ShareTxOut where
  client_id : String
  amount : Option Int
  category : Option String
  note : Option String
  date : Option String
  type : String
  created_at : Option Int
  updated_at : Option Int
deriving DecidableEq

/-- The serialization loop of `get_shared_dashboard`. -/
def serializeShareTx (iso : Int → String) (t : Transaction) : ShareTxOut :=
  { client_id := t.client_id, amount := t.amount, category := t.category,
    note := t.note, date := t.date.map iso, type := t.type,
    created_at := t.created_at, updated_at := t.updated_at }

/-- Successful response of GET /api/share/{token}. -/
structure DashOut where
  client_id : String
  balance : Int
  items : List ShareTxOut
  categories : List (String × Int)
deriving DecidableEq

/-- The dict idiom `by_cat.setdefault(cat, 0); by_cat[cat] += amt` on an
insertion-ordered mapping. -/
def addCat (m : List (String × Int)) (cat : String) (amt : Int) :
    List (String × Int) :=
  let m := if m.any (fun p => p.1 == cat) then m else m ++ [(cat, 0)]
  m.map (fun p => if p.1 == cat then (p.1, p.2 + amt) else p)

/-- GET /api/share/{token}: resolve the token to a Share (404 when none),
then return the client's balance, serialized transactions and per-category
totals. -/
def get_shared_dashboard (iso : Int → String) (token : String) (s : Store) :
    Except HTTPError DashOut :=
  match findShare s token (some 1) with
  | [] => .error { status_code := 404, detail := "Share not found" }
  | d :: _ =>
    let client_id := d.client_id
    let txs := findTx s { client_id := client_id, category := none } none
    let balance := (txs.map (fun t => t.amount.getD 0)).sum
    let by_cat := txs.foldl
      (fun m t => addCat m (t.category.getD "Uncategorized") (t.amount.getD 0)) []
    let items := txs.map (serializeShareTx iso)
    .ok { client_id := client_id, balance := balance, items := items,
          categories := by_cat }

/-- GET /api/categories: the standalone per-category accumulation. -/
def category_totals (client_id : String) (s : Store) : List (String × Int) :=
  let txs := findTx s { client_id := client_id, category := none } none
  txs.foldl
    (fun m t => addCat m (t.category.getD "Uncategorized") (t.amount.getD 0)) []

/-! ## Helper lemmas -/

theorem charListLe_total (a : List Char) : ∀ b, charListLe a b = true ∨ charListLe b a = true := by
  induction a with
  | nil => intro b; exact Or.inl rfl
  | cons x xs ih =>
    intro b
    cases b with
    | nil => exact Or.inr rfl
    | cons y ys =>
      by_cases h1 : x.toNat < y.toNat
      · left; simp [charListLe, h1]
      · by_cases h2 : y.toNat < x.toNat
        · right; simp [charListLe, h2]
        · rcases ih ys with h | h
          · left; simp [charListLe, h1, h2, h]
          · right; simp [charListLe, h1, h2, h]

theorem charListLe_trans (a : List Char) :
    ∀ b c, charListLe a b = true → charListLe b c = true → charListLe a c = true := by
  induction a with
  | nil => intro b c _ _; rfl
  | cons x xs ih =>
    intro b c hab hbc
    cases b with
    | nil => simp [charListLe] at hab
    | cons y ys =>
      cases c with
      | nil => simp [charListLe] at hbc
      | cons z zs =>
        simp only [charListLe] at hab hbc ⊢
        split_ifs at hab hbc ⊢ <;>
          first
            | rfl
            | omega
            | (exact ih ys zs hab hbc)

theorem pyStrLe_total (a b : String) : pyStrLe a b = true ∨ pyStrLe b a = true :=
  charListLe_total a.data b.data

theorem pyStrLe_trans (a b c : String) :
    pyStrLe a b = true → pyStrLe b c = true → pyStrLe a c = true :=
  charListLe_trans a.data b.data c.data

/-- Unrolling the append-accumulating loop shape shared by `reminders`. -/
theorem foldl_append_of_filter {α β : Type} (p : α → Prop) [DecidablePred p] (f : α → β) :
    ∀ (l : List α) (init : List β),
      l.foldl (fun acc x => if p x then acc ++ [f x] else acc) init
        = init ++ (l.filter (fun x => decide (p x))).map f := by
  intro l
  induction l with
  | nil => intro init; simp
  | cons x xs ih =>
    intro init
    by_cases h : p x
    · simp [List.foldl_cons, h, ih, List.filter_cons]
    · simp [List.foldl_cons, h, ih, List.filter_cons]

/-! ## Claims -/

/-- Claim C1: for every payload with type "expense" and amount a > 0,
create_transaction stores the transaction with amount = -a and
type = "expense"; with type "income" and a > 0 it stores amount = a and
type = "income". -/
theorem C1_create_transaction_sign_normalization (now a : Int) (c k : String)
    (n : Option String) (d : Option Int) (s : Store) (ha : 0 < a) :
    create_transaction now ⟨c, a, k, n, "expense", d⟩ s
      = .ok { s with transactions := s.transactions ++
          [⟨c, some (-a), some k, n, some (d.getD now), "expense", none, none⟩] }
    ∧ create_transaction now ⟨c, a, k, n, "income", d⟩ s
      = .ok { s with transactions := s.transactions ++
          [⟨c, some a, some k, n, some (d.getD now), "income", none, none⟩] } := by
  have habs : |a| = a := abs_of_pos ha
  have hneg : ¬ (-a ≥ 0) := by omega
  have hpos : a ≥ 0 := le_of_lt ha
  constructor
  · unfold create_transaction Transaction.build
    simp [habs, hneg, hpos]
  · unfold create_transaction Transaction.build
    simp [habs, hneg, hpos]

/-- Witness for C1 at amount 7: an expense of 7 is stored as -7/"expense",
an income of 7 as 7/"income". -/
theorem C1_create_transaction_sign_normalization_witness :
    (0 : Int) < 7
    ∧ create_transaction 2 ⟨"c1", 7, "Food", none, "expense", none⟩ ⟨[], [], []⟩
        = .ok ⟨[⟨"c1", some (-7), some "Food", none, some 2, "expense", none, none⟩], [], []⟩
    ∧ create_transaction 2 ⟨"c1", 7, "Food", none, "income", none⟩ ⟨[], [], []⟩
        = .ok ⟨[⟨"c1", some 7, some "Food", none, some 2, "income", none, none⟩], [], []⟩ := by
  refine ⟨by decide, ?_, ?_⟩
  · exact (C1_create_transaction_sign_normalization 2 7 "c1" "Food" none none
      ⟨[], [], []⟩ (by decide)).1
  · exact (C1_create_transaction_sign_normalization 2 7 "c1" "Food" none none
      ⟨[], [], []⟩ (by decide)).2

/-- Claim C2: a payload with amount 0 is stored with type "income" whatever
the supplied type string is. -/
theorem C2_zero_amount_stored_as_income (now : Int) (c k ty : String)
    (n : Option String) (d : Option Int) (s : Store) :
    create_transaction now ⟨c, 0, k, n, ty, d⟩ s
      = .ok { s with transactions := s.transactions ++
          [⟨c, some 0, some k, n, some (d.getD now), "income", none, none⟩] } := by
  unfold create_transaction Transaction.build
  by_cases h : (ty == "expense") = true <;> simp [h]

/-- Claim C3: when the client's stored transaction count is below the limit,
the balance equals the sum of the amounts of the items returned by
list_transactions with no category filter; with no transactions it is 0. -/
theorem C3_balance_eq_sum_of_list (iso : Int → String) (c : String) (lim : Nat)
    (s : Store)
    (h : (s.transactions.filter (matchesTx ⟨c, none⟩)).length < lim) :
    get_balance c s
      = ((list_transactions iso c none lim s).map (fun t => t.amount.getD 0)).sum
    ∧ (s.transactions.filter (matchesTx ⟨c, none⟩) = [] → get_balance c s = 0) := by
  have htake : (s.transactions.filter (matchesTx ⟨c, none⟩)).take lim
      = s.transactions.filter (matchesTx ⟨c, none⟩) :=
    List.take_of_length_le (le_of_lt h)
  constructor
  · have hperm :
        (list_transactions iso c none lim s).Perm
          ((s.transactions.filter (matchesTx ⟨c, none⟩)).map (serializeTx iso)) := by
      unfold list_transactions findTx applyLimit txFilterOf
      rw [show strTruthy none = false from rfl]
      simp only [Bool.false_eq_true, if_false, htake]
      exact List.perm_insertionSort _ _
    rw [(hperm.map (fun t => t.amount.getD 0)).sum_eq]
    rw [List.map_map]
    rfl
  · intro hnil
    unfold get_balance findTx applyLimit
    rw [hnil]
    rfl

/-- Witness for C3: a one-transaction client whose balance matches the list
sum under limit 2, and an empty client whose balance is 0. -/
theorem C3_balance_eq_sum_of_list_witness :
    ((⟨[⟨"c1", some 7, some "A", none, some 1, "income", none, none⟩], [], []⟩ : Store).transactions.filter
        (matchesTx ⟨"c1", none⟩)).length < 2
    ∧ get_balance "c1" ⟨[⟨"c1", some 7, some "A", none, some 1, "income", none, none⟩], [], []⟩
        = ((list_transactions (fun _ => "") "c1" none 2
            ⟨[⟨"c1", some 7, some "A", none, some 1, "income", none, none⟩], [], []⟩).map
            (fun t => t.amount.getD 0)).sum
    ∧ get_balance "c1" ⟨[], [], []⟩ = 0 := by
  refine ⟨by decide, ?_, ?_⟩
  · exact (C3_balance_eq_sum_of_list (fun _ => "") "c1" 2
      ⟨[⟨"c1", some 7, some "A", none, some 1, "income", none, none⟩], [], []⟩ (by decide)).1
  · exact (C3_balance_eq_sum_of_list (fun _ => "") "c1" 2 ⟨[], [], []⟩ (by decide)).2 (by decide)

/-- Claim C4: whenever the first Share matching a token carries some
client_id, the shared dashboard's categories mapping equals the one
returned by category_totals for that client_id on the same store. -/
theorem C4_categories_eq_shared_dashboard (iso : Int → String) (token : String)
    (s : Store) (d : Share)
    (h : (s.shares.filter (fun x => x.token == token)).head? = some d) :
    ∃ out, get_shared_dashboard iso token s = .ok out
      ∧ out.categories = category_totals d.client_id s := by
  obtain ⟨tl, htl⟩ : ∃ tl, s.shares.filter (fun x => x.token == token) = d :: tl := by
    cases hfl : s.shares.filter (fun x => x.token == token) with
    | nil => rw [hfl] at h; simp at h
    | cons a tl =>
      rw [hfl] at h
      simp at h
      exact ⟨tl, by rw [h]⟩
  unfold get_shared_dashboard findShare applyLimit category_totals
  rw [htl]
  exact ⟨_, rfl, rfl⟩

/-- Witness for C4: a share "tok" for client "c1" yields the same categories
mapping as category_totals "c1". -/
theorem C4_categories_eq_shared_dashboard_witness :
    ((⟨[⟨"c1", some 50, some "Salary", none, some 1, "income", none, none⟩],
       [], [⟨"c1", "tok", none⟩]⟩ : Store).shares.filter
        (fun x => x.token == "tok")).head? = some ⟨"c1", "tok", none⟩
    ∧ ∃ out, get_shared_dashboard (fun _ => "") "tok"
          ⟨[⟨"c1", some 50, some "Salary", none, some 1, "income", none, none⟩],
           [], [⟨"c1", "tok", none⟩]⟩ = .ok out
        ∧ out.categories = category_totals "c1"
            ⟨[⟨"c1", some 50, some "Salary", none, some 1, "income", none, none⟩],
             [], [⟨"c1", "tok", none⟩]⟩ := by
  refine ⟨by decide, ?_⟩
  exact C4_categories_eq_shared_dashboard (fun _ => "") "tok"
    ⟨[⟨"c1", some 50, some "Salary", none, some 1, "income", none, none⟩],
     [], [⟨"c1", "tok", none⟩]⟩ ⟨"c1", "tok", none⟩ (by decide)

/-- Claim C5: reminders returns exactly the client's recurring records whose
effective due date (datetime as is, text re-parsed, failed parse treated as
now) is ≤ now, projected to label/category/amount, and a record with an
unparsable textual due date is always included. -/
theorem C5_reminders_due_filter (parse : String → Option Int) (now : Int)
    (c : String) (s : Store) :
    reminders parse now c s
      = ((findRecurring s c none).filter
          (fun d => decide (effectiveDue parse now d.next_due_date ≤ now))).map
          (fun d => ⟨d.label, d.category, d.amount⟩)
    ∧ ∀ d ∈ findRecurring s c none,
        (∃ str, d.next_due_date = DueField.txt str ∧ parse str = none) →
        (⟨d.label, d.category, d.amount⟩ : ReminderOut) ∈ reminders parse now c s := by
  have h1 : reminders parse now c s
      = ((findRecurring s c none).filter
          (fun d => decide (effectiveDue parse now d.next_due_date ≤ now))).map
          (fun d => ⟨d.label, d.category, d.amount⟩) := by
    unfold reminders
    have := foldl_append_of_filter
      (fun d : Recurring => effectiveDue parse now d.next_due_date ≤ now)
      (fun d => (⟨d.label, d.category, d.amount⟩ : ReminderOut))
      (findRecurring s c none) []
    simpa using this
  refine ⟨h1, ?_⟩
  rintro d hd ⟨str, hstr, hparse⟩
  rw [h1]
  refine List.mem_map.mpr ⟨d, List.mem_filter.mpr ⟨hd, ?_⟩, rfl⟩
  rw [hstr]
  simp [effectiveDue, hparse]

/-- Witness for C5: with a parse that always fails, a record whose due date
is the unparsable text "garbage" is reported due. -/
theorem C5_reminders_due_filter_witness :
    reminders (fun _ => none) 0 "c1"
        ⟨[], [⟨"c1", some "rent", some 3, some "home", "monthly", "income", .txt "garbage"⟩], []⟩
      = ((findRecurring ⟨[], [⟨"c1", some "rent", some 3, some "home", "monthly", "income", .txt "garbage"⟩], []⟩ "c1" none).filter
          (fun d => decide (effectiveDue (fun _ => none) 0 d.next_due_date ≤ 0))).map
          (fun d => ⟨d.label, d.category, d.amount⟩)
    ∧ (⟨some "rent", some "home", some 3⟩ : ReminderOut) ∈ reminders (fun _ => none) 0 "c1"
        ⟨[], [⟨"c1", some "rent", some 3, some "home", "monthly", "income", .txt "garbage"⟩], []⟩ := by
  refine ⟨(C5_reminders_due_filter (fun _ => none) 0 "c1" _).1, ?_⟩
  exact (C5_reminders_due_filter (fun _ => none) 0 "c1"
      ⟨[], [⟨"c1", some "rent", some 3, some "home", "monthly", "income", .txt "garbage"⟩], []⟩).2
    ⟨"c1", some "rent", some 3, some "home", "monthly", "income", .txt "garbage"⟩
    (by decide) ⟨"garbage", rfl, rfl⟩

/-- Claim C6: the shared dashboard fails with the 404 "Share not found"
error exactly when no stored Share has the requested token, and otherwise
succeeds using the first matching Share record. -/
theorem C6_share_not_found_iff_no_token_match (iso : Int → String)
    (token : String) (s : Store) :
    (get_shared_dashboard iso token s = .error ⟨404, "Share not found"⟩
       ↔ ∀ d ∈ s.shares, ¬ d.token = token)
    ∧ (∀ d tl, s.shares.filter (fun x => x.token == token) = d :: tl →
        ∃ out, get_shared_dashboard iso token s = .ok out
          ∧ out.client_id = d.client_id) := by
  unfold get_shared_dashboard findShare applyLimit
  cases hfl : s.shares.filter (fun x => x.token == token) with
  | nil =>
    constructor
    · constructor
      · intro _ d hd he
        have := List.filter_eq_nil_iff.mp hfl d hd
        simp [he] at this
      · intro _; rfl
    · intro d tl hcons
      exact absurd hcons (by simp)
  | cons a tl =>
    constructor
    · constructor
      · intro he
        simp [List.take] at he
      · intro hall
        have ha : a ∈ s.shares.filter (fun x => x.token == token) := by rw [hfl]; simp
        rw [List.mem_filter] at ha
        exact absurd (by simpa using ha.2) (hall a ha.1)
    · intro d tl' hcons
      injection hcons with h1 _
      subst h1
      exact ⟨_, rfl, rfl⟩

/-- Witness for C6: a store with no shares yields the 404 error, and a store
holding share "tok" for "c1" yields a successful dashboard for "c1". -/
theorem C6_share_not_found_iff_no_token_match_witness :
    (get_shared_dashboard (fun _ => "") "tok" ⟨[], [], []⟩
        = .error ⟨404, "Share not found"⟩
       ↔ ∀ d ∈ (⟨[], [], []⟩ : Store).shares, ¬ d.token = "tok")
    ∧ ∃ out, get_shared_dashboard (fun _ => "") "tok" ⟨[], [], [⟨"c1", "tok", none⟩]⟩
          = .ok out ∧ out.client_id = "c1" := by
  refine ⟨(C6_share_not_found_iff_no_token_match (fun _ => "") "tok" ⟨[], [], []⟩).1, ?_⟩
  exact (C6_share_not_found_iff_no_token_match (fun _ => "") "tok"
      ⟨[], [], [⟨"c1", "tok", none⟩]⟩).2 ⟨"c1", "tok", none⟩ [] (by decide)

/-- Claim C7 counterexample: a payload whose type is "gift" (neither
"income" nor "expense") does not fail with a ValidationError: the request
succeeds and a transaction is stored (as income), refuting the claim. -/
theorem C7_counterexample_nonenum_type_accepted :
    create_transaction 0 ⟨"c1", 5, "Gift", none, "gift", none⟩ ⟨[], [], []⟩
      = .ok ⟨[⟨"c1", some 5, some "Gift", none, some 0, "income", none, none⟩], [], []⟩ := by
  rfl

/-- Claim C7 amended: for every payload whose type is neither "income" nor
"expense", create_transaction succeeds, storing amount = |amount| and
type = "income" (the TransactionIn schema types `type` as a plain string,
so no ValidationError occurs; any non-"expense" type behaves as income). -/
theorem C7_amended_nonenum_type_stored_as_income (now : Int)
    (p : TransactionIn) (s : Store)
    (_h1 : p.type ≠ "income") (h2 : p.type ≠ "expense") :
    create_transaction now p s
      = .ok { s with transactions := s.transactions ++
          [⟨p.client_id, some |p.amount|, some p.category, p.note,
            some (p.date.getD now), "income", none, none⟩] } := by
  have hb2 : (p.type == "expense") = false := beq_eq_false_iff_ne.mpr h2
  unfold create_transaction Transaction.build
  simp [hb2, abs_nonneg]

/-- Witness for the amended C7 at type "gift" and amount 3. -/
theorem C7_amended_nonenum_type_stored_as_income_witness :
    ("gift" : String) ≠ "income" ∧ ("gift" : String) ≠ "expense"
    ∧ create_transaction 0 ⟨"c2", 3, "X", none, "gift", none⟩ ⟨[], [], []⟩
        = .ok ⟨[⟨"c2", some 3, some "X", none, some 0, "income", none, none⟩], [], []⟩ := by
  refine ⟨by decide, by decide, ?_⟩
  exact C7_amended_nonenum_type_stored_as_income 0 ⟨"c2", 3, "X", none, "gift", none⟩
    ⟨[], [], []⟩ (by decide) (by decide)

/-- Claim C8: create_recurring stores amount and type exactly as supplied
(no sign normalization) and defaults next_due_date to now when absent. -/
theorem C8_recurring_stored_as_given (now : Int) (p : RecurringIn) (s s' : Store)
    (h : create_recurring now p s = .ok s') :
    s'.recurrings = s.recurrings ++
      [⟨p.client_id, some p.label, some p.amount, some p.category,
        p.frequency, p.type, .dt (p.next_due_date.getD now)⟩] := by
  unfold create_recurring Recurring.build at h
  split_ifs at h
  simp only [Except.ok.injEq] at h
  rw [← h]

/-- Witness for C8: a negative-amount income recurring record is stored with
amount -4 and type "income" untouched, with next_due_date defaulted to 9. -/
theorem C8_recurring_stored_as_given_witness :
    create_recurring 9 ⟨"c1", "rent", -4, "home", "monthly", "income", none⟩ ⟨[], [], []⟩
        = .ok ⟨[], [⟨"c1", some "rent", some (-4), some "home", "monthly", "income", .dt 9⟩], []⟩
    ∧ (⟨[], [⟨"c1", some "rent", some (-4), some "home", "monthly", "income", .dt 9⟩], []⟩ : Store).recurrings
        = ([] : List Recurring) ++
          [⟨"c1", some "rent", some (-4), some "home", "monthly", "income", .dt 9⟩] := by
  refine ⟨by rfl, ?_⟩
  exact C8_recurring_stored_as_given 9 ⟨"c1", "rent", -4, "home", "monthly", "income", none⟩
    ⟨[], [], []⟩ _ (by rfl)

/-- Claim C9: list_transactions returns at most `limit` items, sorted
descending on the serialized date key, and an empty list (not an error)
when no document matches the filter. -/
theorem C9_list_limit_sorted_empty_ok (iso : Int → String) (c : String)
    (cat : Option String) (lim : Nat) (s : Store) :
    (list_transactions iso c cat lim s).length ≤ lim
    ∧ List.Sorted (fun a b => dateDesc a b = true) (list_transactions iso c cat lim s)
    ∧ (s.transactions.filter (matchesTx (txFilterOf c cat)) = [] →
        list_transactions iso c cat lim s = []) := by
  refine ⟨?_, ?_, ?_⟩
  · have hperm := List.perm_insertionSort (fun a b => dateDesc a b = true)
      ((findTx s (txFilterOf c cat) (some lim)).map (serializeTx iso))
    unfold list_transactions
    rw [hperm.length_eq, List.length_map]
    unfold findTx applyLimit
    exact List.length_take_le _ _
  · haveI : IsTotal TxOut (fun a b => dateDesc a b = true) :=
      ⟨fun a b => pyStrLe_total (dateKey b) (dateKey a)⟩
    haveI : IsTrans TxOut (fun a b => dateDesc a b = true) :=
      ⟨fun a b c hab hbc => pyStrLe_trans (dateKey c) (dateKey b) (dateKey a) hbc hab⟩
    exact List.sorted_insertionSort _ _
  · intro hnil
    unfold list_transactions findTx applyLimit
    rw [hnil]
    simp [List.insertionSort]

/-- Witness for C9 at limit 2 on a store where no document matches the
queried client. -/
theorem C9_list_limit_sorted_empty_ok_witness :
    (list_transactions (fun _ => "") "zzz" none 2
        ⟨[⟨"c9", some 1, some "A", none, some 5, "income", none, none⟩], [], []⟩).length ≤ 2
    ∧ List.Sorted (fun a b => dateDesc a b = true)
        (list_transactions (fun _ => "") "zzz" none 2
          ⟨[⟨"c9", some 1, some "A", none, some 5, "income", none, none⟩], [], []⟩)
    ∧ list_transactions (fun _ => "") "zzz" none 2
        ⟨[⟨"c9", some 1, some "A", none, some 5, "income", none, none⟩], [], []⟩ = [] := by
  refine ⟨?_, ?_, ?_⟩
  · exact (C9_list_limit_sorted_empty_ok (fun _ => "") "zzz" none 2
      ⟨[⟨"c9", some 1, some "A", none, some 5, "income", none, none⟩], [], []⟩).1
  · exact (C9_list_limit_sorted_empty_ok (fun _ => "") "zzz" none 2
      ⟨[⟨"c9", some 1, some "A", none, some 5, "income", none, none⟩], [], []⟩).2.1
  · exact (C9_list_limit_sorted_empty_ok (fun _ => "") "zzz" none 2
      ⟨[⟨"c9", some 1, some "A", none, some 5, "income", none, none⟩], [], []⟩).2.2 (by decide)

/-- Claim C10: querying with category equal to the empty string produces
exactly the same result as omitting the category (the empty string is
falsy, so no category filter is added). -/
theorem C10_empty_category_means_no_filter (iso : Int → String) (c : String)
    (lim : Nat) (s : Store) :
    list_transactions iso c (some "") lim s = list_transactions iso c none lim s :=
  rfl

end Spendings
